import Mathlib

/-!
# terraform-provider-calico: provider configuration

A shallow embedding of `calico/provider.go`: the provider schema (`Provider`), the
`datastore_type` validator, and `providerConfigure`, which assembles an
`api.CalicoAPIConfig`, hands it to `client.New`, logs the result and runs
`loadAndValidate`.

Conventions of the embedding.

* Go strings are Lean `String`s; `!=` on strings is inequality of the values.
* A Go `error` is a `GoError` carrying the text of its `Error()` method; a nilable
  `error` result is an `Option GoError`, `none` standing for `nil`.
* The pointer `*client.Client` is an `Option κ` for an arbitrary type `κ` of client
  objects, `none` standing for the nil pointer.
* `client.New` (libcalico-go) and the method `loadAndValidate` (declared outside
  `provider.go`) are parameters of `providerConfigure`. One run calls each of them at
  most once, so a function of the argument describes everything a run can observe.
* Calls that leave `providerConfigure` (`client.New`, `log.Printf`, `loadAndValidate`)
  are recorded, in program order, in a list of `Event`s returned next to the result.
-/

namespace Calico

/-! ## Go values -/

/-- A Go `error`, identified by the text its `Error()` method returns. -/
structure GoError where
  msg : String
  deriving DecidableEq, Repr

/-- The call `fmt.Errorf("%q: %s", k, s)`. The verb `%q` renders `k` through
`strconv.Quote`, a function of the Go standard library that is taken as the
parameter `quote`; the verb `%s` copies `s`. -/
def Errorf (quote : String → String) (k s : String) : GoError :=
  ⟨quote k ++ ": " ++ s⟩

/-- What `strconv.Quote` yields on a string made of printable characters other than
the double quote and the backslash, such as every key of the provider schema: the
string between two double quotes. -/
def quotePlain (s : String) : String :=
  "\"" ++ s ++ "\""

/-! ## The process environment and `helper/schema` -/

/-- The process environment: a variable is unset (`none`) or set to a string. -/
abbrev Environ := String → Option String

/-- Go `os.Getenv`: the value of the variable, the empty string when it is unset. -/
def Getenv (env : Environ) (k : String) : String :=
  (env k).getD ""

/-- Go `schema.SchemaDefaultFunc`, a `func() (interface{}, error)` that reads the
environment. Every function of this type in `provider.go` yields strings. -/
abbrev SchemaDefaultFunc := Environ → Except GoError String

/-- Library function `schema.EnvDefaultFunc(k, dv)`: the returned function yields the
value of the variable `k` when `os.Getenv` finds it non-empty and `dv` otherwise. -/
def EnvDefaultFunc (k : String) (dv : String) : SchemaDefaultFunc :=
  fun env =>
    let v := Getenv env k
    if v ≠ "" then .ok v else .ok dv

/-- The `interface{}` values that occur as defaults in `provider.go`. -/
inductive Iface where
  | nil
  | str (s : String)
  | func (f : SchemaDefaultFunc)

/-- Go `schema.ValueType`; `provider.go` uses `TypeString` only. -/
inductive ValueType where
  | TypeString
  deriving DecidableEq, Repr

/-- Go `schema.SchemaValidateFunc`: from the value and the key to warnings and errors. -/
abbrev SchemaValidateFunc := String → String → List String × List GoError

/-- The fields of `schema.Schema` that `provider.go` sets. `Default` is an
`interface{}` holding a fixed default, `DefaultFunc` a function computing one. -/
structure Schema where
  Type_ : ValueType
  Optional : Bool
  Default : Iface := Iface.nil
  DefaultFunc : Option SchemaDefaultFunc := none
  Description : String
  ValidateFunc : Option SchemaValidateFunc := none

/-- Library method `(*schema.Schema).DefaultValue`: a non-nil `Default` is returned as
it stands; otherwise `DefaultFunc`, when present, is called; otherwise nil. -/
def Schema.DefaultValue (s : Schema) (env : Environ) : Except GoError Iface :=
  match s.Default with
  | Iface.nil =>
    match s.DefaultFunc with
    | some f =>
      match f env with
      | .ok v => .ok (Iface.str v)
      | .error e => .error e
    | none => .ok Iface.nil
  | dflt => .ok dflt

/-! ## `Provider` -/

/-- The `ValidateFunc` literal of `datastore_type` (lines 22-28): `ws` and `errors`
start nil; one error is appended when the value is neither of the two names. -/
def datastoreTypeValidateFunc (quote : String → String) : SchemaValidateFunc :=
  fun v k =>
    let datastoreType := v
    let ws : List String := []
    let errors : List GoError := []
    let errors :=
      if datastoreType ≠ "etcdv2" ∧ datastoreType ≠ "kubernetes" then
        errors ++ [Errorf quote k "etcdv2 and kubernetes are the only supported values"]
      else errors
    (ws, errors)

/-- The map literal `Provider().Schema` (lines 16-102), as an association list in
source order. -/
def Provider.Schema (quote : String → String) : List (String × Schema) :=
  [ ("datastore_type",
      { Type_ := .TypeString, Optional := true,
        Default := Iface.func (EnvDefaultFunc "CALICO_DATASTORE_TYPE" "etcdv2"),
        Description := "Indicates the datastore to use (required for Kubernetes as the default is etcdv2)",
        ValidateFunc := some (datastoreTypeValidateFunc quote) }),
    ("etcd_endpoints",
      { Type_ := .TypeString, Optional := true,
        DefaultFunc := some (EnvDefaultFunc "CALICO_BACKEND_ETCD_ENDPOINTS" ""),
        Description := "multiple etcd endpoints separated by comma" }),
    ("etcd_username",
      { Type_ := .TypeString, Optional := true,
        DefaultFunc := some (EnvDefaultFunc "CALICO_BACKEND_ETCD_USERNAME" ""),
        Description := "Etcd username" }),
    ("etcd_password",
      { Type_ := .TypeString, Optional := true,
        DefaultFunc := some (EnvDefaultFunc "CALICO_BACKEND_ETCD_PASSWORD" ""),
        Description := "Etcd password" }),
    ("etcd_key_file",
      { Type_ := .TypeString, Optional := true,
        DefaultFunc := some (EnvDefaultFunc "CALICO_BACKEND_ETCD_ETCD_KEY_FILE" ""),
        Description := "File location keyfile" }),
    ("etcd_cert_file",
      { Type_ := .TypeString, Optional := true,
        DefaultFunc := some (EnvDefaultFunc "CALICO_BACKEND_ETCD_ETCD_CERT_FILE" ""),
        Description := "File location certfile" }),
    ("etcd_ca_cert_file",
      { Type_ := .TypeString, Optional := true,
        DefaultFunc := some (EnvDefaultFunc "CALICO_BACKEND_ETCD_ETCD_CA_CERT_FILE" ""),
        Description := "File location cacert" }),
    ("kubeconfig",
      { Type_ := .TypeString, Optional := true,
        DefaultFunc := some (EnvDefaultFunc "CALICO_KUBECONFIG" ""),
        Description := "K8sKubeconfigFile`" }),
    ("k8s_api_endpoint",
      { Type_ := .TypeString, Optional := true,
        DefaultFunc := some (EnvDefaultFunc "CALICO_K8S_API_ENDPOINT" ""),
        Description := "K8sServer" }),
    ("k8s_cert_file",
      { Type_ := .TypeString, Optional := true,
        DefaultFunc := some (EnvDefaultFunc "CALICO_K8S_CERT_FILE" ""),
        Description := "K8sClientCertificate" }),
    ("k8s_key_file",
      { Type_ := .TypeString, Optional := true,
        DefaultFunc := some (EnvDefaultFunc "CALICO_K8S_KEY_FILE" ""),
        Description := "K8sClientKey" }),
    ("k8s_ca_file",
      { Type_ := .TypeString, Optional := true,
        DefaultFunc := some (EnvDefaultFunc "CALICO_K8S_CA_FILE" ""),
        Description := "K8sCertificateAuthority" }),
    ("k8s_token",
      { Type_ := .TypeString, Optional := true,
        DefaultFunc := some (EnvDefaultFunc "CALICO_K8S_TOKEN" ""),
        Description := "K8sToken" }) ]

/-- The default of the option `key` as `helper/schema` computes it when the caller
leaves the option out: `DefaultValue` of the schema entry stored under `key`. -/
def Provider.defaultOf (quote : String → String) (key : String) (env : Environ) :
    Option (Except GoError Iface) :=
  ((Provider.Schema quote).lookup key).map (fun s => s.DefaultValue env)

/-- The environment variable and the literal default that the documentation gives
for each option. -/
def documentedDefaults : List (String × String × String) :=
  [ ("datastore_type", "CALICO_DATASTORE_TYPE", "etcdv2"),
    ("etcd_endpoints", "CALICO_BACKEND_ETCD_ENDPOINTS", ""),
    ("etcd_username", "CALICO_BACKEND_ETCD_USERNAME", ""),
    ("etcd_password", "CALICO_BACKEND_ETCD_PASSWORD", ""),
    ("etcd_key_file", "CALICO_BACKEND_ETCD_ETCD_KEY_FILE", ""),
    ("etcd_cert_file", "CALICO_BACKEND_ETCD_ETCD_CERT_FILE", ""),
    ("etcd_ca_cert_file", "CALICO_BACKEND_ETCD_ETCD_CA_CERT_FILE", ""),
    ("kubeconfig", "CALICO_KUBECONFIG", ""),
    ("k8s_api_endpoint", "CALICO_K8S_API_ENDPOINT", ""),
    ("k8s_cert_file", "CALICO_K8S_CERT_FILE", ""),
    ("k8s_key_file", "CALICO_K8S_KEY_FILE", ""),
    ("k8s_ca_file", "CALICO_K8S_CA_FILE", ""),
    ("k8s_token", "CALICO_K8S_TOKEN", "") ]

/-- The value the documentation promises for an omitted option: that of the
environment variable when it is set, the literal default when it is unset. -/
def documentedValue (env : Environ) (var lit : String) : String :=
  match env var with
  | some v => v
  | none => lit

/-! ## `providerConfigure` -/

/-- The argument `d *schema.ResourceData`: the option values after defaulting. Every
option of the schema is a `TypeString`, for which `Get` returns a string, the empty
string when nothing is stored under the key. -/
structure ResourceData where
  values : List (String × String)
  deriving DecidableEq, Repr

/-- The expression `d.Get(key).(string)`. -/
def ResourceData.Get (d : ResourceData) (key : String) : String :=
  (d.values.lookup key).getD ""

/-- The fields of `api.CalicoAPIConfigSpec` that `providerConfigure` assigns; the
zero value of each is the empty string. -/
structure CalicoAPIConfigSpec where
  DatastoreType : String := ""
  EtcdEndpoints : String := ""
  EtcdUsername : String := ""
  EtcdPassword : String := ""
  EtcdKeyFile : String := ""
  EtcdCertFile : String := ""
  EtcdCACertFile : String := ""
  Kubeconfig : String := ""
  K8sAPIEndpoint : String := ""
  K8sCertFile : String := ""
  K8sKeyFile : String := ""
  K8sCAFile : String := ""
  K8sAPIToken : String := ""
  deriving DecidableEq, Repr

/-- Go `api.CalicoAPIConfig`; `api.CalicoAPIConfig{}` is the value with a zero `Spec`. -/
structure CalicoAPIConfig where
  Spec : CalicoAPIConfigSpec := {}
  deriving DecidableEq, Repr

set_option linter.dupNamespace false in
/-- The struct `config` built at lines 149-152: the descriptor and the client pointer. -/
structure config (κ : Type) where
  config : CalicoAPIConfig
  Client : Option κ
  deriving DecidableEq

/-- A call leaving `providerConfigure`, with its arguments. -/
inductive Event (κ : Type) where
  | clientNew (calicoConfig : CalicoAPIConfig)
  | logPrintf (format : String) (arg : config κ)
  | loadAndValidate (receiver : config κ)
  deriving DecidableEq

/-- What a run of `providerConfigure` yields: the two return values (`none` for
`nil`) and the calls it made, oldest first. -/
structure Run (κ : Type) where
  result : Option (config κ)
  err : Option GoError
  trace : List (Event κ)
  deriving DecidableEq

/-- Whether the event is a call of `client.New`. -/
def Event.isClientNew {κ : Type} : Event κ → Bool
  | Event.clientNew _ => true
  | _ => false

/-- Whether the event is a call of `log.Printf`. -/
def Event.isLogPrintf {κ : Type} : Event κ → Bool
  | Event.logPrintf _ _ => true
  | _ => false

/-- Whether the event is a call of `loadAndValidate`. -/
def Event.isLoadAndValidate {κ : Type} : Event κ → Bool
  | Event.loadAndValidate _ => true
  | _ => false

/-- Lines 119-142 of `providerConfigure`: the zero `calicoConfig` and the `switch`
on `datastore_type`, which has two cases and no default. -/
def providerConfigure.calicoConfig (d : ResourceData) : CalicoAPIConfig :=
  let calicoConfig : CalicoAPIConfig := {}
  let datastoreType := d.Get "datastore_type"
  if datastoreType = "etcdv2" then
    { calicoConfig with
      Spec := { calicoConfig.Spec with
        DatastoreType := datastoreType
        EtcdEndpoints := d.Get "etcd_endpoints"
        EtcdUsername := d.Get "etcd_username"
        EtcdPassword := d.Get "etcd_password"
        EtcdKeyFile := d.Get "etcd_key_file"
        EtcdCertFile := d.Get "etcd_cert_file"
        EtcdCACertFile := d.Get "etcd_ca_cert_file" } }
  else if datastoreType = "kubernetes" then
    { calicoConfig with
      Spec := { calicoConfig.Spec with
        DatastoreType := datastoreType
        Kubeconfig := d.Get "kubeconfig"
        K8sAPIEndpoint := d.Get "k8s_api_endpoint"
        K8sCertFile := d.Get "k8s_cert_file"
        K8sKeyFile := d.Get "k8s_key_file"
        K8sCAFile := d.Get "k8s_ca_file"
        K8sAPIToken := d.Get "k8s_token" } }
  else calicoConfig

/-- Go `providerConfigure` (lines 117-161). `New` is `client.New`, returning the
client pointer and the error; `loadAndValidate` is the method of `config`. -/
def providerConfigure {κ : Type} (New : CalicoAPIConfig → Option κ × Option GoError)
    (loadAndValidate : config κ → Option GoError) (d : ResourceData) : Run κ :=
  let calicoConfig := providerConfigure.calicoConfig d
  match New calicoConfig with
  | (_, some err) =>
    { result := none, err := some err, trace := [Event.clientNew calicoConfig] }
  | (calicoClient, none) =>
    let config : config κ := { config := calicoConfig, Client := calicoClient }
    match loadAndValidate config with
    | some err =>
      { result := none, err := some err,
        trace := [Event.clientNew calicoConfig, Event.logPrintf "Configured: %#v" config,
                  Event.loadAndValidate config] }
    | none =>
      { result := some config, err := none,
        trace := [Event.clientNew calicoConfig, Event.logPrintf "Configured: %#v" config,
                  Event.loadAndValidate config] }

/-! ## Sample inputs -/

/-- An `etcdv2` input that also carries options of the kubernetes variant. -/
def strayInput : ResourceData :=
  ⟨[("datastore_type", "etcdv2"), ("etcd_endpoints", "http://10.0.0.1:2379"),
    ("etcd_username", "calico"), ("etcd_password", "hunter2"),
    ("kubeconfig", "/root/.kube/config"), ("k8s_token", "secret")]⟩

/-- The descriptor that `strayInput` leads to. -/
def strayDescriptor : CalicoAPIConfig :=
  { Spec := { DatastoreType := "etcdv2", EtcdEndpoints := "http://10.0.0.1:2379",
              EtcdUsername := "calico", EtcdPassword := "hunter2" } }

/-- A `kubernetes` input. -/
def kubernetesInput : ResourceData :=
  ⟨[("datastore_type", "kubernetes"), ("k8s_api_endpoint", "https://10.0.0.2:6443"),
    ("k8s_token", "secret")]⟩

/-- An input whose `datastore_type` is neither `etcdv2` nor `kubernetes`. -/
def badInput : ResourceData :=
  ⟨[("datastore_type", "bad"), ("etcd_endpoints", "http://10.0.0.1:2379"),
    ("k8s_token", "secret")]⟩

/-- A `client.New` that succeeds with the client `1`. -/
def newOk : CalicoAPIConfig → Option Nat × Option GoError :=
  fun _ => (some 1, none)

/-- A `client.New` that fails. -/
def newFails : CalicoAPIConfig → Option Nat × Option GoError :=
  fun _ => (none, some ⟨"dial tcp 10.0.0.1:2379: connection refused"⟩)

/-- A `loadAndValidate` that succeeds. -/
def loadOk : config Nat → Option GoError :=
  fun _ => none

/-- A `loadAndValidate` that fails. -/
def loadFails : config Nat → Option GoError :=
  fun _ => some ⟨"invalid configuration"⟩

/-! ## Auxiliary facts -/

theorem calicoConfig_of_etcdv2 (d : ResourceData) (h : d.Get "datastore_type" = "etcdv2") :
    providerConfigure.calicoConfig d =
      { Spec := { DatastoreType := "etcdv2"
                  EtcdEndpoints := d.Get "etcd_endpoints"
                  EtcdUsername := d.Get "etcd_username"
                  EtcdPassword := d.Get "etcd_password"
                  EtcdKeyFile := d.Get "etcd_key_file"
                  EtcdCertFile := d.Get "etcd_cert_file"
                  EtcdCACertFile := d.Get "etcd_ca_cert_file" } } := by
  simp [providerConfigure.calicoConfig, h]

theorem calicoConfig_of_kubernetes (d : ResourceData)
    (h : d.Get "datastore_type" = "kubernetes") :
    providerConfigure.calicoConfig d =
      { Spec := { DatastoreType := "kubernetes"
                  Kubeconfig := d.Get "kubeconfig"
                  K8sAPIEndpoint := d.Get "k8s_api_endpoint"
                  K8sCertFile := d.Get "k8s_cert_file"
                  K8sKeyFile := d.Get "k8s_key_file"
                  K8sCAFile := d.Get "k8s_ca_file"
                  K8sAPIToken := d.Get "k8s_token" } } := by
  simp [providerConfigure.calicoConfig, h]

theorem calicoConfig_of_other (d : ResourceData) (h₁ : d.Get "datastore_type" ≠ "etcdv2")
    (h₂ : d.Get "datastore_type" ≠ "kubernetes") :
    providerConfigure.calicoConfig d = {} := by
  simp [providerConfigure.calicoConfig, h₁, h₂]

theorem providerConfigure_of_New_error {κ : Type}
    (New : CalicoAPIConfig → Option κ × Option GoError)
    (loadAndValidate : config κ → Option GoError) (d : ResourceData) (e : GoError)
    (h : (New (providerConfigure.calicoConfig d)).2 = some e) :
    providerConfigure New loadAndValidate d =
      { result := none, err := some e,
        trace := [Event.clientNew (providerConfigure.calicoConfig d)] } := by
  unfold providerConfigure
  rcases hN : New (providerConfigure.calicoConfig d) with ⟨c, oe⟩
  rw [hN] at h
  simp only at h
  subst h
  simp only [hN]

theorem providerConfigure_of_loadAndValidate_error {κ : Type}
    (New : CalicoAPIConfig → Option κ × Option GoError)
    (loadAndValidate : config κ → Option GoError) (d : ResourceData) (c : Option κ)
    (e : GoError) (h : New (providerConfigure.calicoConfig d) = (c, none))
    (hl : loadAndValidate ⟨providerConfigure.calicoConfig d, c⟩ = some e) :
    providerConfigure New loadAndValidate d =
      { result := none, err := some e,
        trace := [Event.clientNew (providerConfigure.calicoConfig d),
                  Event.logPrintf "Configured: %#v" ⟨providerConfigure.calicoConfig d, c⟩,
                  Event.loadAndValidate ⟨providerConfigure.calicoConfig d, c⟩] } := by
  unfold providerConfigure
  simp only [h, hl]

theorem providerConfigure_of_success {κ : Type}
    (New : CalicoAPIConfig → Option κ × Option GoError)
    (loadAndValidate : config κ → Option GoError) (d : ResourceData) (c : Option κ)
    (h : New (providerConfigure.calicoConfig d) = (c, none))
    (hl : loadAndValidate ⟨providerConfigure.calicoConfig d, c⟩ = none) :
    providerConfigure New loadAndValidate d =
      { result := some ⟨providerConfigure.calicoConfig d, c⟩, err := none,
        trace := [Event.clientNew (providerConfigure.calicoConfig d),
                  Event.logPrintf "Configured: %#v" ⟨providerConfigure.calicoConfig d, c⟩,
                  Event.loadAndValidate ⟨providerConfigure.calicoConfig d, c⟩] } := by
  unfold providerConfigure
  simp only [h, hl]

/-- The three ways a run can go, by the answers of `client.New` and `loadAndValidate`. -/
theorem providerConfigure_cases {κ : Type}
    (New : CalicoAPIConfig → Option κ × Option GoError)
    (loadAndValidate : config κ → Option GoError) (d : ResourceData) :
    (∃ e, (New (providerConfigure.calicoConfig d)).2 = some e) ∨
    (∃ c e, New (providerConfigure.calicoConfig d) = (c, none) ∧
      loadAndValidate ⟨providerConfigure.calicoConfig d, c⟩ = some e) ∨
    (∃ c, New (providerConfigure.calicoConfig d) = (c, none) ∧
      loadAndValidate ⟨providerConfigure.calicoConfig d, c⟩ = none) := by
  rcases hN : New (providerConfigure.calicoConfig d) with ⟨c, oe⟩
  cases oe with
  | some e => exact Or.inl ⟨e, rfl⟩
  | none =>
    cases hl : loadAndValidate ⟨providerConfigure.calicoConfig d, c⟩ with
    | some e => exact Or.inr (Or.inl ⟨c, e, rfl, hl⟩)
    | none => exact Or.inr (Or.inr ⟨c, rfl, hl⟩)

/-- The only `client.New` call of a run is the one on the assembled descriptor. -/
theorem clientNew_mem_trace_iff {κ : Type}
    (New : CalicoAPIConfig → Option κ × Option GoError)
    (loadAndValidate : config κ → Option GoError) (d : ResourceData)
    (cfg : CalicoAPIConfig) :
    Event.clientNew cfg ∈ (providerConfigure New loadAndValidate d).trace ↔
      cfg = providerConfigure.calicoConfig d := by
  rcases providerConfigure_cases New loadAndValidate d with ⟨e, h⟩ | ⟨c, e, h, hl⟩ | ⟨c, h, hl⟩
  · rw [providerConfigure_of_New_error New loadAndValidate d e h]; simp
  · rw [providerConfigure_of_loadAndValidate_error New loadAndValidate d c e h hl]; simp
  · rw [providerConfigure_of_success New loadAndValidate d c h hl]; simp

/-! ## The `datastore_type` validator -/

/-- C2: for every value `v` and key `k` the `datastore_type` `ValidateFunc` returns no
warnings; its error list is empty exactly when `v` is `etcdv2` or `kubernetes`; for any
other `v` it holds exactly one error, whose message is the `%q` rendering of `k`
followed by `: etcdv2 and kubernetes are the only supported values`, so it starts with
the quoted key and contains both names. With the quoting of plain keys the key itself
occurs in the message. -/
theorem datastoreTypeValidateFunc_spec (quote : String → String) (v k : String) :
    (datastoreTypeValidateFunc quote v k).1 = [] ∧
    ((datastoreTypeValidateFunc quote v k).2 = [] ↔ (v = "etcdv2" ∨ v = "kubernetes")) ∧
    (¬ (v = "etcdv2" ∨ v = "kubernetes") →
      ∃ e, (datastoreTypeValidateFunc quote v k).2 = [e] ∧
        e.msg = quote k ++ ": etcdv2 and kubernetes are the only supported values" ∧
        (quote k).data <+: e.msg.data ∧
        "etcdv2".data <:+: e.msg.data ∧ "kubernetes".data <:+: e.msg.data ∧
        (quote = quotePlain → k.data <:+: e.msg.data)) := by
  refine ⟨rfl, ?_, ?_⟩
  · by_cases h₁ : v = "etcdv2"
    · simp [datastoreTypeValidateFunc, h₁]
    · by_cases h₂ : v = "kubernetes"
      · simp [datastoreTypeValidateFunc, h₂]
      · simp [datastoreTypeValidateFunc, h₁, h₂]
  · intro h
    have h₁ : v ≠ "etcdv2" := fun hv => h (Or.inl hv)
    have h₂ : v ≠ "kubernetes" := fun hv => h (Or.inr hv)
    refine ⟨Errorf quote k "etcdv2 and kubernetes are the only supported values", ?_, ?_,
      ?_, ?_, ?_, ?_⟩
    · simp [datastoreTypeValidateFunc, h₁, h₂]
    · simp [Errorf, String.append_assoc]
    · exact ⟨(": " ++ "etcdv2 and kubernetes are the only supported values").data, by
        simp [Errorf, String.data_append]⟩
    · exact ⟨(quote k ++ ": ").data, " and kubernetes are the only supported values".data, by
        simp [Errorf, String.data_append]⟩
    · exact ⟨(quote k ++ ": etcdv2 and ").data, " are the only supported values".data, by
        simp [Errorf, String.data_append]⟩
    · intro hq
      subst hq
      exact ⟨"\"".data,
        ("\"" ++ ": " ++ "etcdv2 and kubernetes are the only supported values").data, by
        simp [Errorf, quotePlain, String.data_append]⟩

/-- Witness of C2 at the value `bad` under the key `datastore_type`. -/
theorem datastoreTypeValidateFunc_spec_witness :
    ¬ ("bad" = "etcdv2" ∨ "bad" = "kubernetes") ∧
    ∃ e, (datastoreTypeValidateFunc quotePlain "bad" "datastore_type").2 = [e] ∧
      e.msg = quotePlain "datastore_type" ++
        ": etcdv2 and kubernetes are the only supported values" ∧
      (quotePlain "datastore_type").data <+: e.msg.data ∧
      "etcdv2".data <:+: e.msg.data ∧ "kubernetes".data <:+: e.msg.data ∧
      (quotePlain = quotePlain → "datastore_type".data <:+: e.msg.data) :=
  ⟨by decide, (datastoreTypeValidateFunc_spec quotePlain "bad" "datastore_type").2.2 (by decide)⟩

/-! ## The descriptor handed to `client.New` -/

/-- C3: in the descriptor that a run of `providerConfigure` hands to `client.New`, the
fields of the variant that `datastore_type` does not select are empty: the six
kubernetes fields under `etcdv2`, the six etcd fields under `kubernetes`, whatever the
options of the other variant hold. Hence two inputs with the same `datastore_type`
and the same options of the selected variant give the same descriptor. -/
theorem providerConfigure_inactive_variant_zero {κ : Type}
    (New : CalicoAPIConfig → Option κ × Option GoError)
    (loadAndValidate : config κ → Option GoError) (d : ResourceData) (cfg : CalicoAPIConfig)
    (h : Event.clientNew cfg ∈ (providerConfigure New loadAndValidate d).trace) :
    (d.Get "datastore_type" = "etcdv2" →
      cfg.Spec.Kubeconfig = "" ∧ cfg.Spec.K8sAPIEndpoint = "" ∧ cfg.Spec.K8sCertFile = "" ∧
      cfg.Spec.K8sKeyFile = "" ∧ cfg.Spec.K8sCAFile = "" ∧ cfg.Spec.K8sAPIToken = "") ∧
    (d.Get "datastore_type" = "kubernetes" →
      cfg.Spec.EtcdEndpoints = "" ∧ cfg.Spec.EtcdUsername = "" ∧ cfg.Spec.EtcdPassword = "" ∧
      cfg.Spec.EtcdKeyFile = "" ∧ cfg.Spec.EtcdCertFile = "" ∧ cfg.Spec.EtcdCACertFile = "") ∧
    (∀ (New' : CalicoAPIConfig → Option κ × Option GoError)
       (loadAndValidate' : config κ → Option GoError) (d' : ResourceData)
       (cfg' : CalicoAPIConfig),
      Event.clientNew cfg' ∈ (providerConfigure New' loadAndValidate' d').trace →
      d'.Get "datastore_type" = d.Get "datastore_type" →
      (d.Get "datastore_type" = "etcdv2" →
        d'.Get "etcd_endpoints" = d.Get "etcd_endpoints" ∧
        d'.Get "etcd_username" = d.Get "etcd_username" ∧
        d'.Get "etcd_password" = d.Get "etcd_password" ∧
        d'.Get "etcd_key_file" = d.Get "etcd_key_file" ∧
        d'.Get "etcd_cert_file" = d.Get "etcd_cert_file" ∧
        d'.Get "etcd_ca_cert_file" = d.Get "etcd_ca_cert_file") →
      (d.Get "datastore_type" = "kubernetes" →
        d'.Get "kubeconfig" = d.Get "kubeconfig" ∧
        d'.Get "k8s_api_endpoint" = d.Get "k8s_api_endpoint" ∧
        d'.Get "k8s_cert_file" = d.Get "k8s_cert_file" ∧
        d'.Get "k8s_key_file" = d.Get "k8s_key_file" ∧
        d'.Get "k8s_ca_file" = d.Get "k8s_ca_file" ∧
        d'.Get "k8s_token" = d.Get "k8s_token") →
      cfg' = cfg) := by
  rw [clientNew_mem_trace_iff] at h
  subst h
  refine ⟨?_, ?_, ?_⟩
  · intro ht
    rw [calicoConfig_of_etcdv2 d ht]
    exact ⟨rfl, rfl, rfl, rfl, rfl, rfl⟩
  · intro ht
    rw [calicoConfig_of_kubernetes d ht]
    exact ⟨rfl, rfl, rfl, rfl, rfl, rfl⟩
  · intro New' loadAndValidate' d' cfg' h' ht he hk
    rw [clientNew_mem_trace_iff] at h'
    subst h'
    by_cases h₁ : d.Get "datastore_type" = "etcdv2"
    · obtain ⟨e₁, e₂, e₃, e₄, e₅, e₆⟩ := he h₁
      rw [calicoConfig_of_etcdv2 d h₁, calicoConfig_of_etcdv2 d' (ht.trans h₁),
        e₁, e₂, e₃, e₄, e₅, e₆]
    · by_cases h₂ : d.Get "datastore_type" = "kubernetes"
      · obtain ⟨e₁, e₂, e₃, e₄, e₅, e₆⟩ := hk h₂
        rw [calicoConfig_of_kubernetes d h₂, calicoConfig_of_kubernetes d' (ht.trans h₂),
          e₁, e₂, e₃, e₄, e₅, e₆]
      · rw [calicoConfig_of_other d h₁ h₂,
          calicoConfig_of_other d' (ht ▸ h₁) (ht ▸ h₂)]

/-- Witness of C3: an `etcdv2` input that also carries kubernetes options. -/
theorem providerConfigure_inactive_variant_zero_witness :
    Event.clientNew strayDescriptor ∈ (providerConfigure newOk loadOk strayInput).trace ∧
    (strayInput.Get "datastore_type" = "etcdv2" →
      strayDescriptor.Spec.Kubeconfig = "" ∧ strayDescriptor.Spec.K8sAPIEndpoint = "" ∧
      strayDescriptor.Spec.K8sCertFile = "" ∧ strayDescriptor.Spec.K8sKeyFile = "" ∧
      strayDescriptor.Spec.K8sCAFile = "" ∧ strayDescriptor.Spec.K8sAPIToken = "") :=
  ⟨by decide,
   (providerConfigure_inactive_variant_zero newOk loadOk strayInput strayDescriptor
      (by decide)).1⟩

/-- C4: when `datastore_type` is `etcdv2` or `kubernetes`, the descriptor handed to
`client.New` has `DatastoreType` equal to it and every field of the selected variant
equal to the value of its option; `client.New` is called on that descriptor. For the
input `datastore_type = etcdv2`, `etcd_endpoints = http://10.0.0.1:2379`, every other
option empty, `EtcdEndpoints` is `http://10.0.0.1:2379` and the kubernetes fields are
empty. -/
theorem providerConfigure_active_variant_copied {κ : Type}
    (New : CalicoAPIConfig → Option κ × Option GoError)
    (loadAndValidate : config κ → Option GoError) (d : ResourceData)
    (ht : d.Get "datastore_type" = "etcdv2" ∨ d.Get "datastore_type" = "kubernetes") :
    (∃ cfg, Event.clientNew cfg ∈ (providerConfigure New loadAndValidate d).trace) ∧
    (∀ cfg, Event.clientNew cfg ∈ (providerConfigure New loadAndValidate d).trace →
      cfg.Spec.DatastoreType = d.Get "datastore_type" ∧
      (d.Get "datastore_type" = "etcdv2" →
        cfg.Spec.EtcdEndpoints = d.Get "etcd_endpoints" ∧
        cfg.Spec.EtcdUsername = d.Get "etcd_username" ∧
        cfg.Spec.EtcdPassword = d.Get "etcd_password" ∧
        cfg.Spec.EtcdKeyFile = d.Get "etcd_key_file" ∧
        cfg.Spec.EtcdCertFile = d.Get "etcd_cert_file" ∧
        cfg.Spec.EtcdCACertFile = d.Get "etcd_ca_cert_file") ∧
      (d.Get "datastore_type" = "kubernetes" →
        cfg.Spec.Kubeconfig = d.Get "kubeconfig" ∧
        cfg.Spec.K8sAPIEndpoint = d.Get "k8s_api_endpoint" ∧
        cfg.Spec.K8sCertFile = d.Get "k8s_cert_file" ∧
        cfg.Spec.K8sKeyFile = d.Get "k8s_key_file" ∧
        cfg.Spec.K8sCAFile = d.Get "k8s_ca_file" ∧
        cfg.Spec.K8sAPIToken = d.Get "k8s_token")) ∧
    (∀ cfg, Event.clientNew cfg ∈ (providerConfigure New loadAndValidate
        ⟨[("datastore_type", "etcdv2"), ("etcd_endpoints", "http://10.0.0.1:2379")]⟩).trace →
      cfg.Spec.DatastoreType = "etcdv2" ∧
      cfg.Spec.EtcdEndpoints = "http://10.0.0.1:2379" ∧
      cfg.Spec.Kubeconfig = "" ∧ cfg.Spec.K8sAPIEndpoint = "" ∧ cfg.Spec.K8sCertFile = "" ∧
      cfg.Spec.K8sKeyFile = "" ∧ cfg.Spec.K8sCAFile = "" ∧ cfg.Spec.K8sAPIToken = "") := by
  refine ⟨⟨_, (clientNew_mem_trace_iff New loadAndValidate d _).2 rfl⟩, ?_, ?_⟩
  · intro cfg h
    rw [clientNew_mem_trace_iff] at h
    subst h
    rcases ht with ht | ht
    · have hk : d.Get "datastore_type" ≠ "kubernetes" := by rw [ht]; decide
      rw [calicoConfig_of_etcdv2 d ht]
      exact ⟨ht.symm, fun _ => ⟨rfl, rfl, rfl, rfl, rfl, rfl⟩, fun h => absurd h hk⟩
    · have he : d.Get "datastore_type" ≠ "etcdv2" := by rw [ht]; decide
      rw [calicoConfig_of_kubernetes d ht]
      exact ⟨ht.symm, fun h => absurd h he, fun _ => ⟨rfl, rfl, rfl, rfl, rfl, rfl⟩⟩
  · intro cfg h
    rw [clientNew_mem_trace_iff] at h
    subst h
    decide

/-- Witness of C4: a `kubernetes` input. -/
theorem providerConfigure_active_variant_copied_witness :
    (kubernetesInput.Get "datastore_type" = "etcdv2" ∨
      kubernetesInput.Get "datastore_type" = "kubernetes") ∧
    ∃ cfg, Event.clientNew cfg ∈ (providerConfigure newOk loadOk kubernetesInput).trace :=
  ⟨by decide, (providerConfigure_active_variant_copied newOk loadOk kubernetesInput
      (by decide)).1⟩

/-! ## Failure of `client.New` and of `loadAndValidate` -/

/-- C5: if `client.New` returns the error `e`, `providerConfigure` returns nil together
with `e` itself; its only call is the one call of `client.New`, so there is no second
attempt and `loadAndValidate` is not called. -/
theorem providerConfigure_New_error {κ : Type}
    (New : CalicoAPIConfig → Option κ × Option GoError)
    (loadAndValidate : config κ → Option GoError) (d : ResourceData) (e : GoError)
    (h : (New (providerConfigure.calicoConfig d)).2 = some e) :
    (providerConfigure New loadAndValidate d).result = none ∧
    (providerConfigure New loadAndValidate d).err = some e ∧
    (providerConfigure New loadAndValidate d).trace =
      [Event.clientNew (providerConfigure.calicoConfig d)] ∧
    (providerConfigure New loadAndValidate d).trace.countP Event.isClientNew = 1 ∧
    (providerConfigure New loadAndValidate d).trace.countP Event.isLoadAndValidate = 0 ∧
    (∀ c, Event.loadAndValidate c ∉ (providerConfigure New loadAndValidate d).trace) := by
  rw [providerConfigure_of_New_error New loadAndValidate d e h]
  refine ⟨rfl, rfl, rfl, rfl, rfl, ?_⟩
  intro c hc
  simp at hc

/-- Witness of C5: a refused connection. -/
theorem providerConfigure_New_error_witness :
    (newFails (providerConfigure.calicoConfig strayInput)).2 =
      some ⟨"dial tcp 10.0.0.1:2379: connection refused"⟩ ∧
    (providerConfigure newFails loadOk strayInput).result = none ∧
    (providerConfigure newFails loadOk strayInput).err =
      some ⟨"dial tcp 10.0.0.1:2379: connection refused"⟩ :=
  ⟨by decide,
   (providerConfigure_New_error newFails loadOk strayInput
      ⟨"dial tcp 10.0.0.1:2379: connection refused"⟩ (by decide)).1,
   (providerConfigure_New_error newFails loadOk strayInput
      ⟨"dial tcp 10.0.0.1:2379: connection refused"⟩ (by decide)).2.1⟩

/-- C6: if `client.New` succeeds with the client `c` and `loadAndValidate`, called on
the configuration built from the descriptor and `c`, returns the error `e`, then
`providerConfigure` returns nil, neither the configuration nor the client, together
with `e`. -/
theorem providerConfigure_loadAndValidate_error {κ : Type}
    (New : CalicoAPIConfig → Option κ × Option GoError)
    (loadAndValidate : config κ → Option GoError) (d : ResourceData) (c : Option κ)
    (e : GoError) (h : New (providerConfigure.calicoConfig d) = (c, none))
    (hl : loadAndValidate ⟨providerConfigure.calicoConfig d, c⟩ = some e) :
    (providerConfigure New loadAndValidate d).result = none ∧
    (providerConfigure New loadAndValidate d).err = some e := by
  rw [providerConfigure_of_loadAndValidate_error New loadAndValidate d c e h hl]
  exact ⟨rfl, rfl⟩

/-- Witness of C6: a client that is built and then fails the check. -/
theorem providerConfigure_loadAndValidate_error_witness :
    newOk (providerConfigure.calicoConfig strayInput) = (some 1, none) ∧
    loadFails ⟨providerConfigure.calicoConfig strayInput, some 1⟩ =
      some ⟨"invalid configuration"⟩ ∧
    (providerConfigure newOk loadFails strayInput).result = none ∧
    (providerConfigure newOk loadFails strayInput).err = some ⟨"invalid configuration"⟩ :=
  ⟨by decide, by decide,
   providerConfigure_loadAndValidate_error newOk loadFails strayInput (some 1)
     ⟨"invalid configuration"⟩ (by decide) (by decide)⟩

/-- C7: a run of `providerConfigure` returns either a configuration and a nil error, or
nil and a non-nil error, whatever `client.New` and `loadAndValidate` do. It returns a
configuration exactly when `client.New` returns a nil error and `loadAndValidate`
returns nil on the configuration built from its client; the returned configuration
holds the descriptor that was passed to `client.New` and the client that call
returned. -/
theorem providerConfigure_all_or_nothing {κ : Type}
    (New : CalicoAPIConfig → Option κ × Option GoError)
    (loadAndValidate : config κ → Option GoError) (d : ResourceData) :
    (((providerConfigure New loadAndValidate d).result ≠ none ∧
        (providerConfigure New loadAndValidate d).err = none) ∨
      ((providerConfigure New loadAndValidate d).result = none ∧
        (providerConfigure New loadAndValidate d).err ≠ none)) ∧
    ((providerConfigure New loadAndValidate d).result ≠ none ↔
      ∃ cfg c, Event.clientNew cfg ∈ (providerConfigure New loadAndValidate d).trace ∧
        New cfg = (c, none) ∧ loadAndValidate ⟨cfg, c⟩ = none) ∧
    (∀ r, (providerConfigure New loadAndValidate d).result = some r →
      Event.clientNew r.config ∈ (providerConfigure New loadAndValidate d).trace ∧
      r.Client = (New r.config).1) := by
  rcases providerConfigure_cases New loadAndValidate d with ⟨e, h⟩ | ⟨c, e, h, hl⟩ | ⟨c, h, hl⟩
  · rw [providerConfigure_of_New_error New loadAndValidate d e h]
    refine ⟨Or.inr ⟨rfl, by simp⟩, ?_, by simp⟩
    simp only [ne_eq, not_true_eq_false, List.mem_singleton, Event.clientNew.injEq, false_iff,
      not_exists, not_and]
    intro cfg c hcfg hN
    subst hcfg
    rw [hN] at h
    simp at h
  · rw [providerConfigure_of_loadAndValidate_error New loadAndValidate d c e h hl]
    refine ⟨Or.inr ⟨rfl, by simp⟩, ?_, by simp⟩
    simp only [ne_eq, not_true_eq_false, false_iff, not_exists, not_and]
    intro cfg c' hcfg hN
    have hcfg' : cfg = providerConfigure.calicoConfig d := by simpa using hcfg
    subst hcfg'
    rw [h] at hN
    have hc : c = c' := by simpa using hN
    subst hc
    rw [hl]
    simp
  · rw [providerConfigure_of_success New loadAndValidate d c h hl]
    refine ⟨Or.inl ⟨by simp, rfl⟩, ?_, ?_⟩
    · simp only [ne_eq, reduceCtorEq, not_false_eq_true, true_iff]
      exact ⟨_, c, by simp, h, hl⟩
    · intro r hr
      have hr' : r = ⟨providerConfigure.calicoConfig d, c⟩ := by simpa using hr.symm
      subst hr'
      simp [h]

/-- Witness of C7: a run that succeeds returns the descriptor it passed and the client
it received. -/
theorem providerConfigure_all_or_nothing_witness :
    (providerConfigure newOk loadOk strayInput).result = some ⟨strayDescriptor, some 1⟩ ∧
    Event.clientNew strayDescriptor ∈ (providerConfigure newOk loadOk strayInput).trace ∧
    (some 1 : Option Nat) = (newOk strayDescriptor).1 :=
  ⟨by decide,
   (providerConfigure_all_or_nothing newOk loadOk strayInput).2.2
     ⟨strayDescriptor, some 1⟩ (by decide)⟩

/-! ## Logging -/

/-- C9: when `client.New` succeeds with the client `c`, the run makes exactly three
calls in this order, whatever `loadAndValidate` answers: `client.New` on the
descriptor, `log.Printf` with the format `Configured: %#v` and the whole configuration
(descriptor and `c`), and `loadAndValidate`. So there is exactly one log call, placed
after the construction of the client and before `loadAndValidate`, and the logged value
carries `EtcdUsername` and `EtcdPassword` (under `etcdv2`) and `K8sAPIToken` (under
`kubernetes`) as the options give them. When `client.New` fails there is no log call. -/
theorem providerConfigure_log_placement {κ : Type}
    (New : CalicoAPIConfig → Option κ × Option GoError)
    (loadAndValidate : config κ → Option GoError) (d : ResourceData) :
    (∀ c, New (providerConfigure.calicoConfig d) = (c, none) →
      (providerConfigure New loadAndValidate d).trace =
        [Event.clientNew (providerConfigure.calicoConfig d),
         Event.logPrintf "Configured: %#v" ⟨providerConfigure.calicoConfig d, c⟩,
         Event.loadAndValidate ⟨providerConfigure.calicoConfig d, c⟩] ∧
      (providerConfigure New loadAndValidate d).trace.countP Event.isLogPrintf = 1 ∧
      (∀ f a, Event.logPrintf f a ∈ (providerConfigure New loadAndValidate d).trace →
        f = "Configured: %#v" ∧ a.Client = c ∧
        Event.clientNew a.config ∈ (providerConfigure New loadAndValidate d).trace ∧
        (d.Get "datastore_type" = "etcdv2" →
          a.config.Spec.EtcdUsername = d.Get "etcd_username" ∧
          a.config.Spec.EtcdPassword = d.Get "etcd_password") ∧
        (d.Get "datastore_type" = "kubernetes" →
          a.config.Spec.K8sAPIToken = d.Get "k8s_token"))) ∧
    (∀ e, (New (providerConfigure.calicoConfig d)).2 = some e →
      (providerConfigure New loadAndValidate d).trace.countP Event.isLogPrintf = 0 ∧
      ∀ f a, Event.logPrintf f a ∉ (providerConfigure New loadAndValidate d).trace) := by
  constructor
  · intro c h
    have ht : (providerConfigure New loadAndValidate d).trace =
        [Event.clientNew (providerConfigure.calicoConfig d),
         Event.logPrintf "Configured: %#v" ⟨providerConfigure.calicoConfig d, c⟩,
         Event.loadAndValidate ⟨providerConfigure.calicoConfig d, c⟩] := by
      cases hl : loadAndValidate ⟨providerConfigure.calicoConfig d, c⟩ with
      | some e => rw [providerConfigure_of_loadAndValidate_error New loadAndValidate d c e h hl]
      | none => rw [providerConfigure_of_success New loadAndValidate d c h hl]
    rw [ht]
    refine ⟨rfl, rfl, ?_⟩
    intro f a ha
    have ha' : f = "Configured: %#v" ∧ a = ⟨providerConfigure.calicoConfig d, c⟩ := by
      simpa using ha
    obtain ⟨hf, hat⟩ := ha'
    subst hat
    refine ⟨hf, rfl, by simp, ?_, ?_⟩
    · intro hd
      simp only [calicoConfig_of_etcdv2 d hd, and_self]
    · intro hd
      simp only [calicoConfig_of_kubernetes d hd]
  · intro e h
    rw [providerConfigure_of_New_error New loadAndValidate d e h]
    refine ⟨rfl, ?_⟩
    intro f a ha
    simp at ha

/-- Witness of C9: the client is built, `loadAndValidate` fails, the log call is there. -/
theorem providerConfigure_log_placement_witness :
    newOk (providerConfigure.calicoConfig strayInput) = (some 1, none) ∧
    (providerConfigure newOk loadFails strayInput).err = some ⟨"invalid configuration"⟩ ∧
    (providerConfigure newOk loadFails strayInput).trace =
      [Event.clientNew (providerConfigure.calicoConfig strayInput),
       Event.logPrintf "Configured: %#v" ⟨providerConfigure.calicoConfig strayInput, some 1⟩,
       Event.loadAndValidate ⟨providerConfigure.calicoConfig strayInput, some 1⟩] :=
  ⟨by decide, by decide,
   ((providerConfigure_log_placement newOk loadFails strayInput).1 (some 1) (by decide)).1⟩

/-! ## Values of `datastore_type` outside the two names -/

/-- C10: `providerConfigure` does not check `datastore_type`. For a value other than
`etcdv2` and `kubernetes`, whatever the other options hold, neither case of the switch
runs: the descriptor is the zero value, all thirteen fields empty, and it is the
argument of the first call, `client.New`. If that call returns an error the run fails
with it; if it returns a client the run goes on to `loadAndValidate` on the zero
descriptor and that client. The options play no part: two such runs whose `client.New`
calls return the same pair are equal. -/
theorem providerConfigure_unchecked_datastore_type {κ : Type}
    (New : CalicoAPIConfig → Option κ × Option GoError)
    (loadAndValidate : config κ → Option GoError) (d : ResourceData)
    (h₁ : d.Get "datastore_type" ≠ "etcdv2") (h₂ : d.Get "datastore_type" ≠ "kubernetes") :
    providerConfigure.calicoConfig d =
      { Spec := ⟨"", "", "", "", "", "", "", "", "", "", "", "", ""⟩ } ∧
    (providerConfigure New loadAndValidate d).trace.head? = some (Event.clientNew {}) ∧
    (∀ cfg, Event.clientNew cfg ∈ (providerConfigure New loadAndValidate d).trace → cfg = {}) ∧
    (∀ e, (New {}).2 = some e →
      (providerConfigure New loadAndValidate d).result = none ∧
      (providerConfigure New loadAndValidate d).err = some e) ∧
    (∀ c, New {} = (c, none) →
      (providerConfigure New loadAndValidate d).err = loadAndValidate ⟨{}, c⟩ ∧
      (providerConfigure New loadAndValidate d).result =
        if loadAndValidate ⟨{}, c⟩ = none then some ⟨{}, c⟩ else none) ∧
    (∀ (New' : CalicoAPIConfig → Option κ × Option GoError) (d' : ResourceData),
      d'.Get "datastore_type" ≠ "etcdv2" → d'.Get "datastore_type" ≠ "kubernetes" →
      New' {} = New {} →
      providerConfigure New' loadAndValidate d' = providerConfigure New loadAndValidate d) := by
  have hz := calicoConfig_of_other d h₁ h₂
  refine ⟨hz, ?_, ?_, ?_, ?_, ?_⟩
  · rcases providerConfigure_cases New loadAndValidate d with
      ⟨e, h⟩ | ⟨c, e, h, hl⟩ | ⟨c, h, hl⟩
    · rw [providerConfigure_of_New_error New loadAndValidate d e h, hz]; rfl
    · rw [providerConfigure_of_loadAndValidate_error New loadAndValidate d c e h hl, hz]; rfl
    · rw [providerConfigure_of_success New loadAndValidate d c h hl, hz]; rfl
  · intro cfg hcfg
    rw [clientNew_mem_trace_iff, hz] at hcfg
    exact hcfg
  · intro e he
    rw [← hz] at he
    rw [providerConfigure_of_New_error New loadAndValidate d e he]
    exact ⟨rfl, rfl⟩
  · intro c hc
    rw [← hz] at hc
    cases hl : loadAndValidate ⟨providerConfigure.calicoConfig d, c⟩ with
    | some e =>
      rw [providerConfigure_of_loadAndValidate_error New loadAndValidate d c e hc hl]
      rw [hz] at hl
      simp [hl]
    | none =>
      rw [providerConfigure_of_success New loadAndValidate d c hc hl]
      rw [hz] at hl
      simp [hl, hz]
  · intro New' d' h₁' h₂' hN
    have hz' := calicoConfig_of_other d' h₁' h₂'
    unfold providerConfigure
    simp only [hz, hz', hN]

/-- Witness of C10: the value `bad`, with a factory that fails. -/
theorem providerConfigure_unchecked_datastore_type_witness :
    badInput.Get "datastore_type" ≠ "etcdv2" ∧ badInput.Get "datastore_type" ≠ "kubernetes" ∧
    providerConfigure.calicoConfig badInput =
      { Spec := ⟨"", "", "", "", "", "", "", "", "", "", "", "", ""⟩ } ∧
    (providerConfigure newFails loadOk badInput).trace.head? = some (Event.clientNew {}) :=
  ⟨by decide, by decide,
   (providerConfigure_unchecked_datastore_type newFails loadOk badInput
      (by decide) (by decide)).1,
   (providerConfigure_unchecked_datastore_type newFails loadOk badInput
      (by decide) (by decide)).2.1⟩

/-- C1, as stated, fails: with `datastore_type = bad`, a `client.New` that succeeds and a
`loadAndValidate` that succeeds, `providerConfigure` calls `client.New` and returns a
configuration and no error. -/
theorem providerConfigure_bad_type_accepted :
    badInput.Get "datastore_type" ≠ "etcdv2" ∧ badInput.Get "datastore_type" ≠ "kubernetes" ∧
    Event.clientNew {} ∈ (providerConfigure newOk loadOk badInput).trace ∧
    (providerConfigure newOk loadOk badInput).err = none ∧
    (providerConfigure newOk loadOk badInput).result = some ⟨{}, some 1⟩ := by
  decide

/-- C1, amended: for a `datastore_type` value `v` other than `etcdv2` and `kubernetes`,
whatever the other options hold, the validation error comes from the `ValidateFunc`
that the schema attaches to `datastore_type`, which returns exactly one error. It
does not come from `providerConfigure`, which makes no check: it calls `client.New`
once, on the zero descriptor, and an error it returns is the one `client.New` or
`loadAndValidate` returned. -/
theorem datastore_type_rejected_by_schema_only {κ : Type} (quote : String → String)
    (New : CalicoAPIConfig → Option κ × Option GoError)
    (loadAndValidate : config κ → Option GoError) (d : ResourceData) (v : String)
    (hd : d.Get "datastore_type" = v) (h₁ : v ≠ "etcdv2") (h₂ : v ≠ "kubernetes") :
    (∃ s f, (Provider.Schema quote).lookup "datastore_type" = some s ∧
      s.ValidateFunc = some f ∧
      (f v "datastore_type").2 =
        [Errorf quote "datastore_type" "etcdv2 and kubernetes are the only supported values"]) ∧
    Event.clientNew {} ∈ (providerConfigure New loadAndValidate d).trace ∧
    (providerConfigure New loadAndValidate d).trace.countP Event.isClientNew = 1 ∧
    (∀ e, (providerConfigure New loadAndValidate d).err = some e →
      (New {}).2 = some e ∨ ∃ c, New {} = (c, none) ∧ loadAndValidate ⟨{}, c⟩ = some e) := by
  subst hd
  have hz := calicoConfig_of_other d h₁ h₂
  refine ⟨⟨_, datastoreTypeValidateFunc quote, rfl, rfl, ?_⟩, ?_, ?_, ?_⟩
  · simp [datastoreTypeValidateFunc, h₁, h₂]
  · rw [clientNew_mem_trace_iff, hz]
  · rcases providerConfigure_cases New loadAndValidate d with
      ⟨e, h⟩ | ⟨c, e, h, hl⟩ | ⟨c, h, hl⟩
    · rw [providerConfigure_of_New_error New loadAndValidate d e h]; rfl
    · rw [providerConfigure_of_loadAndValidate_error New loadAndValidate d c e h hl]; rfl
    · rw [providerConfigure_of_success New loadAndValidate d c h hl]; rfl
  · intro e he
    rcases providerConfigure_cases New loadAndValidate d with
      ⟨e', h⟩ | ⟨c, e', h, hl⟩ | ⟨c, h, hl⟩
    · rw [providerConfigure_of_New_error New loadAndValidate d e' h] at he
      rw [hz] at h
      left
      rw [h]
      simpa using he
    · rw [providerConfigure_of_loadAndValidate_error New loadAndValidate d c e' h hl] at he
      rw [hz] at h hl
      right
      refine ⟨c, h, ?_⟩
      rw [hl]
      simpa using he
    · rw [providerConfigure_of_success New loadAndValidate d c h hl] at he
      simp at he

/-- Witness of the amended C1 at the value `bad`. -/
theorem datastore_type_rejected_by_schema_only_witness :
    badInput.Get "datastore_type" = "bad" ∧ "bad" ≠ "etcdv2" ∧ "bad" ≠ "kubernetes" ∧
    Event.clientNew {} ∈ (providerConfigure newOk loadOk badInput).trace :=
  ⟨by decide, by decide, by decide,
   (datastore_type_rejected_by_schema_only quotePlain newOk loadOk badInput "bad"
      (by decide) (by decide) (by decide)).2.1⟩

/-! ## Defaults of omitted options -/

/-- With the empty string as literal default, `EnvDefaultFunc` yields what `os.Getenv`
reads. -/
theorem EnvDefaultFunc_empty (k : String) (env : Environ) :
    EnvDefaultFunc k "" env = .ok ((env k).getD "") := by
  unfold EnvDefaultFunc Getenv
  by_cases h : (env k).getD "" = ""
  · simp [h]
  · simp [h]

/-- The twelve options declared with `DefaultFunc`: when the option is left out, its
value is that of the documented environment variable, and the empty string when the
variable is unset. -/
theorem defaultOf_DefaultFunc_options (quote : String → String) (env : Environ)
    (key var lit : String) (hm : (key, var, lit) ∈ documentedDefaults)
    (hk : key ≠ "datastore_type") :
    Provider.defaultOf quote key env = some (.ok (Iface.str (documentedValue env var lit))) := by
  simp only [documentedDefaults, List.mem_cons, Prod.mk.injEq, List.mem_singleton,
    List.not_mem_nil, or_false] at hm
  rcases hm with h | h | h | h | h | h | h | h | h | h | h | h | h <;>
    obtain ⟨rfl, rfl, rfl⟩ := h
  · exact absurd rfl hk
  all_goals
    simp [Provider.defaultOf, Provider.Schema, List.lookup, Schema.DefaultValue,
      EnvDefaultFunc_empty, documentedValue]
    cases env _ <;> rfl

/-- C8 fails for `datastore_type`: its schema entry stores the function built by
`EnvDefaultFunc` in `Default`, the field of fixed defaults, where the twelve other
options use `DefaultFunc`. The default of an omitted `datastore_type` is therefore
that function itself, in every environment, and never a string: neither the value of
`CALICO_DATASTORE_TYPE` nor `etcdv2`. -/
theorem datastore_type_default_is_a_function (quote : String → String) (env : Environ) :
    Provider.defaultOf quote "datastore_type" env =
      some (.ok (Iface.func (EnvDefaultFunc "CALICO_DATASTORE_TYPE" "etcdv2"))) ∧
    (∀ s, Provider.defaultOf quote "datastore_type" env ≠ some (.ok (Iface.str s))) ∧
    Provider.defaultOf quote "datastore_type" env ≠
      some (.ok (Iface.str (documentedValue env "CALICO_DATASTORE_TYPE" "etcdv2"))) := by
  have h : Provider.defaultOf quote "datastore_type" env =
      some (.ok (Iface.func (EnvDefaultFunc "CALICO_DATASTORE_TYPE" "etcdv2"))) := rfl
  refine ⟨h, ?_, ?_⟩
  · intro s hs
    rw [h] at hs
    simp at hs
  · intro hs
    rw [h] at hs
    simp at hs

end Calico
